import Mathlib

/-!
Verification development for the dem-fill-serverless repository.

The repository has two Python source files:
  * `src/handler.py` — the RunPod serverless job handler: validates the job
    request, downloads the input raster from S3 into a temporary directory,
    runs the external dem-fill inference subprocess, uploads the result, and
    converts every failure into a structured error dictionary.
  * `src/client_example.py` — the submission client: uploads an input file,
    triggers a job, polls for completion with a timeout, and checks whether
    the output object exists.

This file is a shallow embedding of that code.  External effects (S3
transfers, the inference subprocess, the filesystem existence check, the
temporary directory) are modelled by an environment record `Env` that fixes
the outcome of each external call for one invocation, and by an explicit
list of `Effect` values recording which external actions the handler
performed and in which order.  Python dictionaries are modelled as
association lists with string keys, and Python string helpers
(`str.rstrip('/')`, `os.path.splitext`, `os.path.basename`, `os.path.join`)
are embedded directly.
-/

/-- Python `s.rstrip('/')`: remove every trailing `'/'` character. -/
def rstripSlash (s : String) : String :=
  ⟨(s.data.reverse.dropWhile (fun c => c = '/')).reverse⟩

/-- Python `os.path.basename p` (POSIX): the part of `p` after the last `'/'`. -/
def baseName (p : String) : String :=
  ⟨(p.data.reverse.takeWhile (fun c => c ≠ '/')).reverse⟩

/-- Python `os.path.join a b` (POSIX, two arguments): `b` if `b` is absolute,
otherwise `a` and `b` joined with a single separator. -/
def pjoin (a b : String) : String :=
  if b.startsWith "/" then b
  else if a = "" ∨ a.endsWith "/" then a ++ b
  else a ++ "/" ++ b

/-- Index of the last occurrence of `c` in the list, if any. -/
def lastIdx (c : Char) : List Char → Option Nat
  | [] => none
  | x :: xs =>
    match lastIdx c xs with
    | some i => some (i + 1)
    | none => if x = c then some 0 else none

/-- Python `os.path.splitext` (POSIX), on the character list: split at the last
dot, provided the last dot lies after the last path separator and at least one
non-dot character from the basename precedes it (leading dots never start an
extension). -/
def splitextList (l : List Char) : List Char × List Char :=
  let startIdx : Nat :=
    match lastIdx '/' l with
    | none => 0
    | some s => s + 1
  match lastIdx '.' l with
  | none => (l, [])
  | some d =>
    if startIdx ≤ d ∧ ((l.drop startIdx).take (d - startIdx)).any (fun ch => ch ≠ '.') then
      (l.take d, l.drop d)
    else (l, [])

/-- Python `os.path.splitext p`: `(root, extension)` with `root ++ extension = p`. -/
def splitext (p : String) : String × String :=
  (⟨(splitextList p.data).1⟩, ⟨(splitextList p.data).2⟩)

/-- Python `str` applied to the value of the handler's `filename` variable when
it is interpolated into the error message: `None` renders as `"None"`, a string
renders as itself. -/
def pyStrOfOpt : Option String → String
  | none => "None"
  | some s => s

/-- Python `str` of a list of plain strings (as interpolated into
`CalledProcessError`'s message via `' '.join` is not used there; the exception
stores the argument list, whose `str` is its repr). -/
def pyStrListRepr (l : List String) : String :=
  "[" ++ String.intercalate ", " (l.map (fun s => "'" ++ s ++ "'")) ++ "]"

/-- Configuration read from environment variables at module load, with the
defaults from `src/handler.py` lines 16-18 (`src/client_example.py` lines 38-40
read the same variables with the same defaults). -/
structure Config where
  bucket : String
  inputPfx : String
  outputPfx : String

/-- The default configuration (no environment overrides). -/
def defaultConfig : Config :=
  { bucket := "dem-fill-serverless-file-store"
    inputPfx := "to-process/"
    outputPfx := "completed/" }

/-- The Python exceptions that can be raised inside the handler's `try` block:
`ValueError` from validation (line 126), boto3 client exceptions from the S3
download/upload (their Python type name and `str` are supplied by the
environment), `subprocess.CalledProcessError` re-raised by
`run_dem_inpainting` (line 101), and `RuntimeError` from the output
post-condition check (line 171). -/
inductive PyExc where
  | valueError (msg : String)
  | s3Error (name msg : String)
  | calledProcessError (returncode : Int) (stdout stderr cmdRepr : String)
  | runtimeError (msg : String)
deriving DecidableEq

/-- Python `type(e).__name__` for a modelled exception. -/
def PyExc.typeName : PyExc → String
  | .valueError _ => "ValueError"
  | .s3Error n _ => n
  | .calledProcessError _ _ _ _ => "CalledProcessError"
  | .runtimeError _ => "RuntimeError"

/-- Python `str(e)` for a modelled exception.  For `CalledProcessError` this is
the message built by `subprocess.CalledProcessError.__str__` (the named-signal
rendering of negative return codes is simplified to the unknown-signal form,
which no claim depends on). -/
def PyExc.str : PyExc → String
  | .valueError m => m
  | .s3Error _ m => m
  | .calledProcessError rc _ _ cmd =>
    if rc < 0 then
      "Command '" ++ cmd ++ "' died with unknown signal " ++ toString (-rc) ++ "."
    else
      "Command '" ++ cmd ++ "' returned non-zero exit status " ++ toString rc ++ "."
  | .runtimeError m => m

/-- Python `traceback.format_exc()`, modelled as a deterministic rendering of
the exception being handled (the real value also contains stack frames; the
claims only require that the diagnostic trace is present and derived from the
raised exception). -/
def pyTraceback (e : PyExc) : String :=
  "Traceback (most recent call last):\n" ++ e.typeName ++ ": " ++ e.str

/-- One external action performed by a handler invocation, in order:
creation/removal of the `tempfile.TemporaryDirectory`, the S3 download
(line 143), the inference subprocess invocation (line 77), the
`os.path.exists` post-condition check on the expected output (line 170), and
the S3 upload (line 180). -/
inductive Effect where
  | mkdtemp (dir : String)
  | download (bucket key localPath : String)
  | runInference (inputPath : String)
  | checkOutput (path : String)
  | upload (localPath bucket key : String)
  | rmtree (dir : String)
deriving DecidableEq

/-- The outcomes of the external world for one handler invocation: the name of
the temporary directory handed out by `tempfile.TemporaryDirectory`, the
outcome of the S3 download (on failure, the raised exception's type name and
`str`), the outcome of the inference subprocess (`.error` holds return code,
captured stdout and stderr when `subprocess.run(..., check=True)` raises
`CalledProcessError`; `.ok` holds the captured stdout), the filesystem
existence oracle used by `os.path.exists`, and the outcome of the S3 upload. -/
structure Env where
  tmpdir : String
  downloadResult : Except (String × String) Unit
  inferenceResult : Except (Int × String × String) String
  pathExists : String → Bool
  uploadResult : Except (String × String) Unit

/-- The `event["input"]` object: a dictionary that may or may not carry a
`"filename"` entry (a missing entry and an explicit `null` both read back as
`None` through `dict.get`). -/
structure JobInput where
  filename : Option String

/-- The `event` object passed to the handler: `event.get("input")` may be
missing or `null`. -/
structure Event where
  input : Option JobInput

/-- Python expression `event.get("input") or {}` followed by `.get("filename")`
(`src/handler.py` lines 122-123). -/
def eventFilename (ev : Event) : Option String :=
  (ev.input.getD ⟨none⟩).filename

/-- The fixed command line built by `run_dem_inpainting`
(`src/handler.py` lines 58-71). -/
def demFillCmd (inputPath : String) : List String :=
  ["python", "run.py", "-p", "test", "-c",
   "/workspace/shared/dem-fill/config/dem_completion.json",
   "--resume_state", "/workspace/shared/dem-fill/pretrained/20",
   "--n_timestep", "100", "--input_img", inputPath]

/-- Embeds `run_dem_inpainting(input_path)` (`src/handler.py` lines 35-101): computes
the expected output path from the basename of the input, runs the subprocess
with `check=True` from the dem-fill directory, re-raises `CalledProcessError`
on a non-zero exit, and on a zero exit returns the expected output path
without checking that it exists. -/
def run_dem_inpainting (env : Env) (input_path : String) :
    Except PyExc String × List Effect :=
  let ne := splitext (baseName input_path)
  let expected := "/workspace/shared/dem-fill/output/" ++ ne.1 ++ "_processed" ++ ne.2
  match env.inferenceResult with
  | .error (rc, out, err) =>
    (.error (.calledProcessError rc out err (pyStrListRepr (demFillCmd input_path))),
     [.runInference input_path])
  | .ok _ => (.ok expected, [.runInference input_path])

/-- The filename with `_processed` inserted before the extension
(`src/handler.py` lines 156-157). -/
def processedFilename (fn : String) : String :=
  (splitext fn).1 ++ "_processed" ++ (splitext fn).2

/-- The body of the `with tempfile.TemporaryDirectory()` block
(`src/handler.py` lines 137-181): download the input object, run the
inference, check the expected output path exists, and upload the result to
the output key `OUTPUT_PREFIX + processed_filename`.  Returns either the
raised exception or the pair (final `output_key`, `processed_filename`),
together with the external actions performed. -/
def handlerWithBody (cfg : Config) (env : Env) (fn input_key local_in : String) :
    Except PyExc (String × String) × List Effect :=
  let dl := Effect.download cfg.bucket input_key local_in
  match env.downloadResult with
  | .error (n, m) => (.error (.s3Error n m), [dl])
  | .ok _ =>
    let inf := run_dem_inpainting env local_in
    match inf.1 with
    | .error e => (.error e, dl :: inf.2)
    | .ok _ =>
      let processed_filename := processedFilename fn
      let expected_output_path := "/workspace/shared/dem-fill/output/" ++ processed_filename
      if env.pathExists expected_output_path then
        let output_key := cfg.outputPfx ++ processed_filename
        let up := Effect.upload expected_output_path cfg.bucket output_key
        match env.uploadResult with
        | .error (n, m) =>
          (.error (.s3Error n m), dl :: inf.2 ++ [.checkOutput expected_output_path, up])
        | .ok _ =>
          (.ok (output_key, processed_filename),
           dl :: inf.2 ++ [.checkOutput expected_output_path, up])
      else
        (.error (.runtimeError
            ("Expected output file " ++ expected_output_path ++
             " was not created by inference")),
         dl :: inf.2 ++ [.checkOutput expected_output_path])

/-- The error dictionary built by the handler's `except` block
(`src/handler.py` lines 196-206).  `localsFilename` models
`filename if 'filename' in locals() else 'unknown file'`: `none` stands for
the variable not being bound at all (unreachable for dictionary events, since
line 123 assigns `filename` before anything in the `try` block can raise);
`some v` stands for the variable holding the Python value `v` (`None`, `""`,
or a filename), rendered by string interpolation. -/
def errorResult (localsFilename : Option (Option String)) (e : PyExc) :
    List (String × String) :=
  [("status", "error"),
   ("message", "Error processing " ++
      (match localsFilename with
       | some v => pyStrOfOpt v
       | none => "unknown file") ++ ": " ++ e.str),
   ("error_type", e.typeName),
   ("traceback", pyTraceback e)]

/-- Embeds `handler(event)` (`src/handler.py` lines 104-206).  Returns the result
dictionary (an association list, in the order the Python dict literal lists
its keys) together with the list of external actions performed.  The
temporary-directory context manager is modelled by bracketing the body's
effects with `mkdtemp`/`rmtree`: `TemporaryDirectory.__exit__` removes the
directory on every way out of the `with` block, including exception
propagation, before the `except` clause runs. -/
def handler (cfg : Config) (env : Env) (ev : Event) :
    List (String × String) × List Effect :=
  match eventFilename ev with
  | none =>
    (errorResult (some none) (.valueError "Missing 'filename' in event['input']."), [])
  | some fn =>
    if fn = "" then
      (errorResult (some (some ""))
        (.valueError "Missing 'filename' in event['input']."), [])
    else
      let input_key := rstripSlash cfg.inputPfx ++ "/" ++ fn
      let local_in := pjoin env.tmpdir fn
      let body := handlerWithBody cfg env fn input_key local_in
      let effs := Effect.mkdtemp env.tmpdir :: body.2 ++ [Effect.rmtree env.tmpdir]
      match body.1 with
      | .ok res =>
        ([("status", "success"),
          ("message", "DEM inpainting completed successfully"),
          ("bucket", cfg.bucket),
          ("input_key", input_key),
          ("output_key", res.1),
          ("input_filename", fn),
          ("output_filename", res.2)], effs)
      | .error e => (errorResult (some (some fn)) e, effs)

/-- A JSON-like Python value appearing in a job-status response: a string or a
nested dictionary (the only shapes the client's polling loop inspects). -/
inductive PyObj where
  | str (s : String)
  | dict (fields : List (String × PyObj))

/-- Python `status_response.get(k)` on a status-response dictionary. -/
def jLookup (resp : List (String × PyObj)) (k : String) : Option PyObj :=
  resp.lookup k

/-- The Python comparison `status_response.get("status") == st` for a string
literal `st`: true exactly when the `"status"` entry is that string. -/
def jStatus (resp : List (String × PyObj)) : Option String :=
  match jLookup resp "status" with
  | some (.str s) => some s
  | _ => none

/-- One observable step of the client's completion-wait loop: a status poll
(`check_job_status`, recorded with its iteration index) or a
`time.sleep(poll_interval)`. -/
inductive WEvent where
  | pollEv (k : Nat)
  | sleepEv
deriving DecidableEq

/-- The trace of `n` non-terminal loop iterations starting at iteration `k`:
each polls and then sleeps. -/
def pollTrace (n k : Nat) : List WEvent :=
  match n with
  | 0 => []
  | n + 1 => .pollEv k :: .sleepEv :: pollTrace n (k + 1)

/-- The `while time.time() - start_time < timeout` loop of
`wait_for_completion` (`src/client_example.py` lines 175-196).  `poll m` is
the parsed JSON dictionary returned by the `m`-th `check_job_status` call;
time is counted in seconds and advances only in `time.sleep(poll_interval)`
(the poll itself is modelled as instantaneous), so `elapsed` is the current
value of `time.time() - start_time`.  On `COMPLETED` the loop returns
`status_response.get("output")`; on `FAILED` it returns the full
status-response dictionary; on any other status it sleeps and retries; once
`elapsed` is at least `timeout` it returns Python `None` (modelled `none`).
`fuel` bounds the recursion; `wait_for_completion` passes `timeout + 1`,
which is never exhausted when the poll interval is positive. -/
def waitLoop (poll : Nat → List (String × PyObj)) (timeout interval : Nat) :
    Nat → Nat → Nat → Option PyObj × List WEvent
  | 0, _, _ => (none, [])
  | fuel + 1, k, elapsed =>
    if elapsed < timeout then
      let resp := poll k
      if jStatus resp = some "COMPLETED" then (jLookup resp "output", [.pollEv k])
      else if jStatus resp = some "FAILED" then (some (.dict resp), [.pollEv k])
      else
        let rest := waitLoop poll timeout interval fuel (k + 1) (elapsed + interval)
        (rest.1, .pollEv k :: .sleepEv :: rest.2)
    else (none, [])

/-- Embeds `wait_for_completion(job_id, timeout, poll_interval)`
(`src/client_example.py` lines 160-196), returning the Python return value
(`None` for timeout, the output payload for `COMPLETED`, the full status
payload for `FAILED`) together with the trace of polls and sleeps. -/
def wait_for_completion (poll : Nat → List (String × PyObj))
    (timeout interval : Nat) : Option PyObj × List WEvent :=
  waitLoop poll timeout interval (timeout + 1) 0 0

/-- The S3 key inspected by the client's `check_output_exists(filename)`
(`src/client_example.py` lines 199-208): the output prefix followed by the
original filename. -/
def checkOutputKey (cfg : Config) (filename : String) : String :=
  cfg.outputPfx ++ filename

/-- A fully successful environment used to instantiate theorems at concrete
inputs: every external call succeeds and every path exists. -/
def envAllOk : Env :=
  { tmpdir := "/tmp/tmpw3k9q"
    downloadResult := .ok ()
    inferenceResult := .ok "inference stdout"
    pathExists := fun _ => true
    uploadResult := .ok () }

/-- An environment whose S3 download fails with a boto3 `ClientError`. -/
def envDownloadFails : Env :=
  { tmpdir := "/tmp/tmpw3k9q"
    downloadResult := .error ("ClientError",
      "An error occurred (404) when calling the HeadObject operation: Not Found")
    inferenceResult := .ok "inference stdout"
    pathExists := fun _ => true
    uploadResult := .ok () }

/-- An environment whose inference subprocess exits with status 1. -/
def envInferenceFails : Env :=
  { tmpdir := "/tmp/tmpw3k9q"
    downloadResult := .ok ()
    inferenceResult := .error (1, "partial stdout", "CUDA out of memory")
    pathExists := fun _ => true
    uploadResult := .ok () }

/-- An environment whose inference subprocess exits 0 but where no file exists
at the expected output path. -/
def envNoOutputFile : Env :=
  { tmpdir := "/tmp/tmpw3k9q"
    downloadResult := .ok ()
    inferenceResult := .ok "inference stdout"
    pathExists := fun _ => false
    uploadResult := .ok () }

/-- A poll oracle that reports `IN_QUEUE`, then `IN_PROGRESS`, then
`COMPLETED` with an output payload, matching the status sequence named by the
spec's testable property 5. -/
def pollSeqCompleted : Nat → List (String × PyObj)
  | 0 => [("status", .str "IN_QUEUE")]
  | 1 => [("status", .str "IN_PROGRESS")]
  | _ => [("status", .str "COMPLETED"), ("output", .dict [("status", .str "success")])]

/-- A poll oracle that always reports `IN_PROGRESS`, never reaching a terminal
status. -/
def pollSeqStuck : Nat → List (String × PyObj) :=
  fun _ => [("status", .str "IN_PROGRESS")]

-- ------------------------------------------------------------------
-- Theorems
-- ------------------------------------------------------------------

/-- The two parts returned by `splitext` reassemble to the original string. -/
theorem splitext_fst_append_snd (p : String) : (splitext p).1 ++ (splitext p).2 = p := by
  have h : (splitextList p.data).1 ++ (splitextList p.data).2 = p.data := by
    unfold splitextList
    cases lastIdx '.' p.data with
    | none => simp
    | some d =>
      simp only []
      split
      · simp [List.take_append_drop]
      · simp
  show String.mk ((splitextList p.data).1 ++ (splitextList p.data).2) = p
  rw [h]

/-- Length of a string concatenation. -/
theorem strLength_append (a b : String) : (a ++ b).length = a.length + b.length := by
  cases a with
  | mk da =>
    cases b with
    | mk db =>
      show (String.mk (da ++ db)).length = _
      simp [String.length]

/-- The result of `processedFilename` is ten characters longer than the filename it is
derived from (the length of `"_processed"`). -/
theorem processedFilename_length (fn : String) :
    (processedFilename fn).length = fn.length + 10 := by
  have h := splitext_fst_append_snd fn
  have hl : (splitext fn).1.length + (splitext fn).2.length = fn.length := by
    rw [← strLength_append, h]
  unfold processedFilename
  rw [strLength_append, strLength_append]
  have h10 : ("_processed" : String).length = 10 := rfl
  omega

/-- Field lookups on the error dictionary. -/
theorem errorResult_lookup_status (lf : Option (Option String)) (e : PyExc) :
    (errorResult lf e).lookup "status" = some "error" := rfl

theorem errorResult_lookup_error_type (lf : Option (Option String)) (e : PyExc) :
    (errorResult lf e).lookup "error_type" = some e.typeName := rfl

theorem errorResult_lookup_traceback (lf : Option (Option String)) (e : PyExc) :
    (errorResult lf e).lookup "traceback" = some (pyTraceback e) := rfl

theorem errorResult_lookup_message (lf : Option (Option String)) (e : PyExc) :
    (errorResult lf e).lookup "message" =
      some ("Error processing " ++
        (match lf with
         | some v => pyStrOfOpt v
         | none => "unknown file") ++ ": " ++ e.str) := rfl

/-- Case analysis on a handler invocation: the result dictionary is either the
success dictionary of `src/handler.py` lines 183-191 (with the invocation's
input key, output key and filenames) or the error dictionary of lines 201-206
for the exception the body raised. -/
theorem handler_result_cases (cfg : Config) (env : Env) (ev : Event) :
    (∃ ik ok fn pf, (handler cfg env ev).1 =
      [("status", "success"),
       ("message", "DEM inpainting completed successfully"),
       ("bucket", cfg.bucket),
       ("input_key", ik),
       ("output_key", ok),
       ("input_filename", fn),
       ("output_filename", pf)]) ∨
    (∃ lf e, (handler cfg env ev).1 = errorResult lf e) := by
  rcases h : eventFilename ev with _ | fn
  · right
    exact ⟨some none, .valueError "Missing 'filename' in event['input'].",
      by simp [handler, h]⟩
  · by_cases hfn : fn = ""
    · right
      subst hfn
      exact ⟨some (some ""), .valueError "Missing 'filename' in event['input'].",
        by simp [handler, h]⟩
    · rcases hb : (handlerWithBody cfg env fn (rstripSlash cfg.inputPfx ++ "/" ++ fn)
          (pjoin env.tmpdir fn)).1 with e | res
      · right
        exact ⟨some (some fn), e, by simp [handler, h, hfn, hb]⟩
      · left
        exact ⟨rstripSlash cfg.inputPfx ++ "/" ++ fn, res.1, fn, res.2,
          by simp [handler, h, hfn, hb]⟩

/-- C1: for every configuration, environment outcome and event, the handler
returns a well-formed result dictionary — it is a total function, so no
exception propagates past its boundary — and that dictionary either reports
`status = "success"`, or is exactly the structured error dictionary for the
exception raised by the body, carrying `status = "error"`, the error kind's
Python type name in `error_type`, and the diagnostic traceback in
`traceback`. -/
theorem handler_never_raises_structured_result (cfg : Config) (env : Env) (ev : Event) :
    ((handler cfg env ev).1.lookup "status" = some "success") ∨
    (∃ lf e, (handler cfg env ev).1 = errorResult lf e ∧
      (handler cfg env ev).1.lookup "status" = some "error" ∧
      (handler cfg env ev).1.lookup "error_type" = some e.typeName ∧
      (handler cfg env ev).1.lookup "traceback" = some (pyTraceback e)) := by
  rcases handler_result_cases cfg env ev with ⟨ik, ok, fn, pf, hh⟩ | ⟨lf, e, hh⟩
  · left
    rw [hh]
    rfl
  · right
    exact ⟨lf, e, hh, by rw [hh]; rfl, by rw [hh]; rfl, by rw [hh]; rfl⟩

/-- C4 counterexample: a concrete successful invocation whose result has no
`"filename"` field (it has `input_filename` and `output_filename` instead),
and a concrete failing invocation whose error result has none of `bucket`,
`input_key`, `output_key`, `filename`. -/
theorem result_fields_claim_false :
    (handler defaultConfig envAllOk ⟨some ⟨some "tile_007.tif"⟩⟩).1.lookup "status"
        = some "success" ∧
    (handler defaultConfig envAllOk ⟨some ⟨some "tile_007.tif"⟩⟩).1.lookup "filename"
        = none ∧
    (handler defaultConfig envDownloadFails ⟨some ⟨some "tile_007.tif"⟩⟩).1.lookup "status"
        = some "error" ∧
    (handler defaultConfig envDownloadFails ⟨some ⟨some "tile_007.tif"⟩⟩).1.lookup "bucket"
        = none ∧
    (handler defaultConfig envDownloadFails ⟨some ⟨some "tile_007.tif"⟩⟩).1.lookup "input_key"
        = none ∧
    (handler defaultConfig envDownloadFails ⟨some ⟨some "tile_007.tif"⟩⟩).1.lookup "output_key"
        = none ∧
    (handler defaultConfig envDownloadFails ⟨some ⟨some "tile_007.tif"⟩⟩).1.lookup "filename"
        = none := by
  refine ⟨?_, ?_, ?_, ?_, ?_, ?_, ?_⟩ <;> rfl

/-- C4 as amended: every result dictionary produced by the handler has exactly
one of two key sets — the success variant carries `status`, `message`,
`bucket`, `input_key`, `output_key`, `input_filename`, `output_filename`
(there is no plain `filename` field), and the error variant carries exactly
`status`, `message`, `error_type`, `traceback` (no bucket or key fields). -/
theorem handler_result_keys (cfg : Config) (env : Env) (ev : Event) :
    ((handler cfg env ev).1.map Prod.fst =
      ["status", "message", "bucket", "input_key", "output_key",
       "input_filename", "output_filename"]) ∨
    ((handler cfg env ev).1.map Prod.fst =
      ["status", "message", "error_type", "traceback"]) := by
  rcases handler_result_cases cfg env ev with ⟨ik, ok, fn, pf, hh⟩ | ⟨lf, e, hh⟩
  · left
    rw [hh]
    rfl
  · right
    rw [hh]
    rfl

/-- C9 counterexample: for the concrete event `{"input": {}}` (no filename),
the handler's error message is `"Error processing None: ..."` — the variable
`filename` was assigned `None` on line 123 before the `ValueError` was raised,
so `'filename' in locals()` is true and the interpolation renders `None`, not
`"unknown file"`; the text `"unknown file"` does not occur in the message.
The same happens for an empty filename, where the message renders the empty
string. -/
theorem validation_message_not_unknown_file :
    (handler defaultConfig envAllOk ⟨some ⟨none⟩⟩).1.lookup "message"
        = some "Error processing None: Missing 'filename' in event['input']." ∧
    ¬ ("unknown file".data <:+:
        "Error processing None: Missing 'filename' in event['input'].".data) ∧
    (handler defaultConfig envAllOk ⟨some ⟨some ""⟩⟩).1.lookup "message"
        = some "Error processing : Missing 'filename' in event['input']." ∧
    ¬ ("unknown file".data <:+:
        "Error processing : Missing 'filename' in event['input'].".data) := by
  refine ⟨rfl, by decide, rfl, by decide⟩

/-- C9 as amended: when the job request's filename is missing (the `input`
object is absent or carries no filename) the error message identifies the file
as `None`, and when the filename is the empty string the message identifies it
as the empty string — because line 123 binds `filename` before validation, the
`'filename' in locals()` guard is already true, and the `"unknown file"` text
of the `except` block is reachable only for an exception raised before that
assignment, which a dictionary event cannot produce. -/
theorem validation_message_renders_bound_filename (cfg : Config) (env : Env) :
    ((handler cfg env ⟨some ⟨none⟩⟩).1.lookup "message"
        = some "Error processing None: Missing 'filename' in event['input'].") ∧
    ((handler cfg env ⟨none⟩).1.lookup "message"
        = some "Error processing None: Missing 'filename' in event['input'].") ∧
    ((handler cfg env ⟨some ⟨some ""⟩⟩).1.lookup "message"
        = some "Error processing : Missing 'filename' in event['input'].") := by
  refine ⟨rfl, rfl, rfl⟩

/-- The full success path: with a valid filename and every external call
succeeding, the handler produces the success dictionary of lines 183-191 and
performs exactly download, inference, output check and upload inside the
temporary-directory bracket. -/
theorem handler_success_result (cfg : Config) (env : Env) (ev : Event) (fn : String)
    (hfn : eventFilename ev = some fn) (hne : fn ≠ "")
    (hd : env.downloadResult = .ok ()) (s : String) (hi : env.inferenceResult = .ok s)
    (hx : env.pathExists ("/workspace/shared/dem-fill/output/" ++ processedFilename fn) = true)
    (hu : env.uploadResult = .ok ()) :
    (handler cfg env ev).1 =
      [("status", "success"),
       ("message", "DEM inpainting completed successfully"),
       ("bucket", cfg.bucket),
       ("input_key", rstripSlash cfg.inputPfx ++ "/" ++ fn),
       ("output_key", cfg.outputPfx ++ processedFilename fn),
       ("input_filename", fn),
       ("output_filename", processedFilename fn)] ∧
    (handler cfg env ev).2 =
      [Effect.mkdtemp env.tmpdir,
       Effect.download cfg.bucket (rstripSlash cfg.inputPfx ++ "/" ++ fn)
         (pjoin env.tmpdir fn),
       Effect.runInference (pjoin env.tmpdir fn),
       Effect.checkOutput ("/workspace/shared/dem-fill/output/" ++ processedFilename fn),
       Effect.upload ("/workspace/shared/dem-fill/output/" ++ processedFilename fn)
         cfg.bucket (cfg.outputPfx ++ processedFilename fn),
       Effect.rmtree env.tmpdir] := by
  constructor <;>
    simp [handler, hfn, hne, handlerWithBody, run_dem_inpainting, hd, hi, hx, hu]

/-- C2: for the filename `"tile_007.tif"`, on a successful invocation the
input key computed by the handler is the input prefix followed by
`tile_007.tif` (the `rstrip('/')` normalisation is the identity on a prefix
that ends in exactly one slash, as both defaults do), and the output key in
the success result is the output prefix followed by `tile_007_processed.tif`
— this handler is the suffix variant, inserting `_processed` before the
extension. -/
theorem roundtrip_keys_tile007 (cfg : Config) (env : Env)
    (hp : rstripSlash cfg.inputPfx ++ "/" = cfg.inputPfx)
    (hd : env.downloadResult = .ok ()) (s : String) (hi : env.inferenceResult = .ok s)
    (hx : env.pathExists "/workspace/shared/dem-fill/output/tile_007_processed.tif" = true)
    (hu : env.uploadResult = .ok ()) :
    (handler cfg env ⟨some ⟨some "tile_007.tif"⟩⟩).1.lookup "input_key"
        = some (cfg.inputPfx ++ "tile_007.tif") ∧
    (handler cfg env ⟨some ⟨some "tile_007.tif"⟩⟩).1.lookup "output_key"
        = some (cfg.outputPfx ++ "tile_007_processed.tif") := by
  have hpf : processedFilename "tile_007.tif" = "tile_007_processed.tif" := by decide
  have hx' : env.pathExists
      ("/workspace/shared/dem-fill/output/" ++ processedFilename "tile_007.tif") = true := by
    rw [hpf]
    exact hx
  have h := handler_success_result cfg env ⟨some ⟨some "tile_007.tif"⟩⟩ "tile_007.tif"
    rfl (by decide) hd s hi hx' hu
  rw [h.1]
  constructor
  · show some (rstripSlash cfg.inputPfx ++ "/" ++ "tile_007.tif") = _
    rw [hp]
  · show some (cfg.outputPfx ++ processedFilename "tile_007.tif") = _
    rw [hpf]

/-- C2 witness: the round-trip key property instantiated at the default
configuration and a concrete successful environment. -/
theorem roundtrip_keys_tile007_instance :
    (handler defaultConfig envAllOk ⟨some ⟨some "tile_007.tif"⟩⟩).1.lookup "input_key"
        = some ("to-process/" ++ "tile_007.tif") ∧
    (handler defaultConfig envAllOk ⟨some ⟨some "tile_007.tif"⟩⟩).1.lookup "output_key"
        = some ("completed/" ++ "tile_007_processed.tif") :=
  roundtrip_keys_tile007 defaultConfig envAllOk (by decide) rfl "inference stdout" rfl rfl rfl

/-- The download-failure path: with a valid filename, if the S3 download
raises, the handler returns the error dictionary for that exception and the
only external actions are the temporary-directory bracket around the single
download attempt. -/
theorem handler_download_error_result (cfg : Config) (env : Env) (ev : Event)
    (fn en em : String) (hfn : eventFilename ev = some fn) (hne : fn ≠ "")
    (hd : env.downloadResult = .error (en, em)) :
    (handler cfg env ev).1 = errorResult (some (some fn)) (.s3Error en em) ∧
    (handler cfg env ev).2 =
      [Effect.mkdtemp env.tmpdir,
       Effect.download cfg.bucket (rstripSlash cfg.inputPfx ++ "/" ++ fn)
         (pjoin env.tmpdir fn),
       Effect.rmtree env.tmpdir] := by
  constructor <;> simp [handler, hfn, hne, handlerWithBody, hd]

/-- C5: for every filename, if the blob-store download fails then the
handler's result has status `"error"` with a message that mentions the
filename, and the recorded external actions contain no inference invocation
and no upload — only the temporary-directory bracket around the failed
download. -/
theorem download_failure_no_inference_no_upload (cfg : Config) (env : Env) (ev : Event)
    (fn en em : String) (hfn : eventFilename ev = some fn) (hne : fn ≠ "")
    (hd : env.downloadResult = .error (en, em)) :
    (handler cfg env ev).1.lookup "status" = some "error" ∧
    (∃ a b, (handler cfg env ev).1.lookup "message" = some (a ++ fn ++ b)) ∧
    (∀ p, Effect.runInference p ∉ (handler cfg env ev).2) ∧
    (∀ lp b k, Effect.upload lp b k ∉ (handler cfg env ev).2) := by
  obtain ⟨h1, h2⟩ := handler_download_error_result cfg env ev fn en em hfn hne hd
  refine ⟨by rw [h1]; rfl, ⟨"Error processing ", ": " ++ em, ?_⟩, ?_, ?_⟩
  · rw [h1, errorResult_lookup_message]
    simp [PyExc.str, pyStrOfOpt, String.append_assoc]
  · intro p
    rw [h2]
    simp
  · intro lp b k
    rw [h2]
    simp

/-- C5 witness: the download-failure property instantiated at a concrete
failing environment and filename. -/
theorem download_failure_instance :
    (handler defaultConfig envDownloadFails ⟨some ⟨some "tile_007.tif"⟩⟩).1.lookup "status"
        = some "error" ∧
    (∃ a b, (handler defaultConfig envDownloadFails
        ⟨some ⟨some "tile_007.tif"⟩⟩).1.lookup "message"
        = some (a ++ "tile_007.tif" ++ b)) ∧
    (∀ p, Effect.runInference p ∉
        (handler defaultConfig envDownloadFails ⟨some ⟨some "tile_007.tif"⟩⟩).2) ∧
    (∀ lp b k, Effect.upload lp b k ∉
        (handler defaultConfig envDownloadFails ⟨some ⟨some "tile_007.tif"⟩⟩).2) :=
  download_failure_no_inference_no_upload defaultConfig envDownloadFails
    ⟨some ⟨some "tile_007.tif"⟩⟩ "tile_007.tif" "ClientError"
    "An error occurred (404) when calling the HeadObject operation: Not Found"
    rfl (by decide) rfl

/-- The non-zero-exit path: with a valid filename and a successful download,
if the inference subprocess exits non-zero, the handler returns the error
dictionary for the re-raised `CalledProcessError` (carrying the exit code and
the captured stdout/stderr), and the recorded actions stop at the inference
invocation — no output-file check and no upload. -/
theorem handler_cpe_result (cfg : Config) (env : Env) (ev : Event) (fn : String)
    (rc : Int) (out err : String) (hfn : eventFilename ev = some fn) (hne : fn ≠ "")
    (hd : env.downloadResult = .ok ())
    (hi : env.inferenceResult = .error (rc, out, err)) :
    (handler cfg env ev).1 = errorResult (some (some fn))
      (.calledProcessError rc out err (pyStrListRepr (demFillCmd (pjoin env.tmpdir fn)))) ∧
    (handler cfg env ev).2 =
      [Effect.mkdtemp env.tmpdir,
       Effect.download cfg.bucket (rstripSlash cfg.inputPfx ++ "/" ++ fn)
         (pjoin env.tmpdir fn),
       Effect.runInference (pjoin env.tmpdir fn),
       Effect.rmtree env.tmpdir] := by
  constructor <;> simp [handler, hfn, hne, handlerWithBody, run_dem_inpainting, hd, hi]

/-- The missing-output path: with a valid filename, a successful download and
a zero-exit inference run, if no file exists at the expected output path, the
handler returns the error dictionary for the `RuntimeError` raised by the
post-condition check, and no upload is recorded. -/
theorem handler_missing_output_result (cfg : Config) (env : Env) (ev : Event)
    (fn s : String) (hfn : eventFilename ev = some fn) (hne : fn ≠ "")
    (hd : env.downloadResult = .ok ()) (hi : env.inferenceResult = .ok s)
    (hx : env.pathExists
      ("/workspace/shared/dem-fill/output/" ++ processedFilename fn) = false) :
    (handler cfg env ev).1 = errorResult (some (some fn))
      (.runtimeError ("Expected output file " ++
        ("/workspace/shared/dem-fill/output/" ++ processedFilename fn) ++
        " was not created by inference")) ∧
    (handler cfg env ev).2 =
      [Effect.mkdtemp env.tmpdir,
       Effect.download cfg.bucket (rstripSlash cfg.inputPfx ++ "/" ++ fn)
         (pjoin env.tmpdir fn),
       Effect.runInference (pjoin env.tmpdir fn),
       Effect.checkOutput ("/workspace/shared/dem-fill/output/" ++ processedFilename fn),
       Effect.rmtree env.tmpdir] := by
  constructor <;>
    simp [handler, hfn, hne, handlerWithBody, run_dem_inpainting, hd, hi, hx,
      String.append_assoc]

/-- C6: the two inference failure modes are distinct and independently
detected.  If the subprocess exits non-zero, the result is the structured
error for a `CalledProcessError` carrying the exit code and the captured
stdout/stderr, and no output-file check or upload is attempted.  If the
subprocess exits zero but the expected output file is missing, the result
still has status `"error"`, via the distinct `RuntimeError` kind raised by
the post-condition check. -/
theorem inference_failure_modes_distinct (cfg : Config) (env : Env) (ev : Event)
    (fn : String) (hfn : eventFilename ev = some fn) (hne : fn ≠ "")
    (hd : env.downloadResult = .ok ()) :
    (∀ rc out err, env.inferenceResult = .error (rc, out, err) →
      (handler cfg env ev).1.lookup "status" = some "error" ∧
      (handler cfg env ev).1.lookup "error_type" = some "CalledProcessError" ∧
      (∃ c, (handler cfg env ev).1 =
        errorResult (some (some fn)) (.calledProcessError rc out err c)) ∧
      (∀ p, Effect.checkOutput p ∉ (handler cfg env ev).2) ∧
      (∀ lp b k, Effect.upload lp b k ∉ (handler cfg env ev).2)) ∧
    (∀ s, env.inferenceResult = .ok s →
      env.pathExists ("/workspace/shared/dem-fill/output/" ++ processedFilename fn)
        = false →
      (handler cfg env ev).1.lookup "status" = some "error" ∧
      (handler cfg env ev).1.lookup "error_type" = some "RuntimeError" ∧
      ("RuntimeError" : String) ≠ "CalledProcessError") := by
  constructor
  · intro rc out err hi
    obtain ⟨h1, h2⟩ := handler_cpe_result cfg env ev fn rc out err hfn hne hd hi
    refine ⟨by rw [h1]; rfl, by rw [h1]; rfl, ⟨_, h1⟩, ?_, ?_⟩
    · intro p
      rw [h2]
      simp
    · intro lp b k
      rw [h2]
      simp
  · intro s hi hx
    obtain ⟨h1, _⟩ := handler_missing_output_result cfg env ev fn s hfn hne hd hi hx
    exact ⟨by rw [h1]; rfl, by rw [h1]; rfl, by decide⟩

/-- C6 witness: the two failure modes instantiated at concrete environments —
an exit-code-1 run and a zero-exit run that produces no output file. -/
theorem inference_failure_modes_instance :
    ((handler defaultConfig envInferenceFails ⟨some ⟨some "a.tif"⟩⟩).1.lookup "error_type"
        = some "CalledProcessError") ∧
    ((handler defaultConfig envNoOutputFile ⟨some ⟨some "a.tif"⟩⟩).1.lookup "error_type"
        = some "RuntimeError") := by
  have h1 := (inference_failure_modes_distinct defaultConfig envInferenceFails
    ⟨some ⟨some "a.tif"⟩⟩ "a.tif" rfl (by decide) rfl).1
    1 "partial stdout" "CUDA out of memory" rfl
  have h2 := (inference_failure_modes_distinct defaultConfig envNoOutputFile
    ⟨some ⟨some "a.tif"⟩⟩ "a.tif" rfl (by decide) rfl).2
    "inference stdout" rfl rfl
  exact ⟨h1.2.1, h2.2.1⟩

/-- C10: every invocation that reaches the download step — that is, every
invocation whose filename validates, since the temporary directory is created
immediately before the download — records its external actions as the body's
actions bracketed by the creation and, as the final action, the removal of
the scoped temporary directory.  The bracketing holds for every environment
outcome (success, handled error, and the modelled unexpected `RuntimeError`
alike), so the directory is gone by the time the handler returns. -/
theorem tmpdir_removed_on_every_path (cfg : Config) (env : Env) (ev : Event)
    (fn : String) (hfn : eventFilename ev = some fn) (hne : fn ≠ "") :
    ∃ es, (handler cfg env ev).2 =
      Effect.mkdtemp env.tmpdir :: es ++ [Effect.rmtree env.tmpdir] := by
  refine ⟨(handlerWithBody cfg env fn (rstripSlash cfg.inputPfx ++ "/" ++ fn)
    (pjoin env.tmpdir fn)).2, ?_⟩
  rcases hb : (handlerWithBody cfg env fn (rstripSlash cfg.inputPfx ++ "/" ++ fn)
      (pjoin env.tmpdir fn)).1 with e | res <;>
    simp [handler, hfn, hne, hb]

/-- C10 witness: the cleanup bracketing instantiated at a concrete failing
environment (the inference exits non-zero) and at a concrete filename. -/
theorem tmpdir_removed_instance :
    ∃ es, (handler defaultConfig envInferenceFails ⟨some ⟨some "a.tif"⟩⟩).2 =
      Effect.mkdtemp envInferenceFails.tmpdir :: es
        ++ [Effect.rmtree envInferenceFails.tmpdir] :=
  tmpdir_removed_on_every_path defaultConfig envInferenceFails
    ⟨some ⟨some "a.tif"⟩⟩ "a.tif" rfl (by decide)

/-- Any upload effect recorded by `handlerWithBody` targets the key
`outputPfx ++ processedFilename fn`. -/
theorem handlerWithBody_upload_key (cfg : Config) (env : Env)
    (fn ik li lp b k : String)
    (hmem : Effect.upload lp b k ∈ (handlerWithBody cfg env fn ik li).2) :
    k = cfg.outputPfx ++ processedFilename fn := by
  rcases hd : env.downloadResult with ⟨n, m⟩ | u
  · simp [handlerWithBody, hd] at hmem
  · rcases hi : env.inferenceResult with ⟨rc, out, err⟩ | so
    · simp [handlerWithBody, run_dem_inpainting, hd, hi] at hmem
    · by_cases hx : env.pathExists
          ("/workspace/shared/dem-fill/output/" ++ processedFilename fn) = true
      · rcases hu : env.uploadResult with ⟨n, m⟩ | u' <;>
          simp [handlerWithBody, run_dem_inpainting, hd, hi, hx, hu] at hmem <;>
          exact hmem.2.2
      · simp [handlerWithBody, run_dem_inpainting, hd, hi, hx] at hmem

/-- C3: for every filename with a non-empty extension, the key inspected by
the client's `check_output_exists` (output prefix plus the original filename)
differs from the key of every upload the handler performs (output prefix plus
the filename's stem, `_processed`, and the extension): the client's
post-success confirmation checks a key the handler never writes.  (The
hypothesis on the extension follows the claim; the two keys in fact differ
for every filename, their lengths being ten characters apart.) -/
theorem client_checks_key_handler_never_writes (cfg : Config) (env : Env) (ev : Event)
    (fn : String) (hfn : eventFilename ev = some fn) (hne : fn ≠ "")
    (hext : (splitext fn).2 ≠ "") (lp b k : String)
    (hmem : Effect.upload lp b k ∈ (handler cfg env ev).2) :
    k ≠ checkOutputKey cfg fn := by
  have hk : k = cfg.outputPfx ++ processedFilename fn := by
    have hmem' : Effect.upload lp b k ∈
        (handlerWithBody cfg env fn (rstripSlash cfg.inputPfx ++ "/" ++ fn)
          (pjoin env.tmpdir fn)).2 := by
      rcases hb : (handlerWithBody cfg env fn (rstripSlash cfg.inputPfx ++ "/" ++ fn)
          (pjoin env.tmpdir fn)).1 with e | res <;>
        simp [handler, hfn, hne, hb] at hmem <;> exact hmem
    exact handlerWithBody_upload_key cfg env fn _ _ lp b k hmem'
  rw [hk]
  intro hcontra
  have hlen := congrArg String.length hcontra
  rw [checkOutputKey] at hlen
  rw [strLength_append, strLength_append, processedFilename_length] at hlen
  omega

/-- C3 witness: for `"tile_007.tif"` (extension `".tif"`), the upload the
handler performs on a successful run goes to a key different from the key the
client's confirmation checks. -/
theorem client_checks_key_instance :
    Effect.upload "/workspace/shared/dem-fill/output/tile_007_processed.tif"
      "dem-fill-serverless-file-store" "completed/tile_007_processed.tif"
      ∈ (handler defaultConfig envAllOk ⟨some ⟨some "tile_007.tif"⟩⟩).2 ∧
    ("completed/tile_007_processed.tif" : String)
      ≠ checkOutputKey defaultConfig "tile_007.tif" := by
  constructor
  · decide
  · exact client_checks_key_handler_never_writes defaultConfig envAllOk
      ⟨some ⟨some "tile_007.tif"⟩⟩ "tile_007.tif" rfl (by decide) (by decide)
      "/workspace/shared/dem-fill/output/tile_007_processed.tif"
      "dem-fill-serverless-file-store" "completed/tile_007_processed.tif"
      (by decide)

/-- Stepping lemma for the polling loop: if the first `n` polls starting at
iteration `k` are all non-terminal and the elapsed time stays below the
timeout throughout, the loop run equals `n` poll/sleep iterations followed by
the run continuing at iteration `k + n`. -/
theorem waitLoop_steps (poll : Nat → List (String × PyObj)) (timeout interval : Nat) :
    ∀ n fuel k elapsed, n < fuel → elapsed + n * interval < timeout →
    (∀ m, m < n → jStatus (poll (k + m)) ≠ some "COMPLETED" ∧
      jStatus (poll (k + m)) ≠ some "FAILED") →
    waitLoop poll timeout interval fuel k elapsed =
      ((waitLoop poll timeout interval (fuel - n) (k + n) (elapsed + n * interval)).1,
       pollTrace n k ++
         (waitLoop poll timeout interval (fuel - n) (k + n) (elapsed + n * interval)).2) := by
  intro n
  induction n with
  | zero =>
    intro fuel k elapsed _ _ _
    simp [pollTrace]
  | succ n ih =>
    intro fuel k elapsed hfuel ht hpre
    rcases fuel with _ | f
    · omega
    have helapsed : elapsed < timeout := by
      have : elapsed ≤ elapsed + (n + 1) * interval := Nat.le_add_right _ _
      omega
    have hnc := hpre 0 (Nat.succ_pos n)
    rw [Nat.add_zero] at hnc
    have harith : elapsed + (n + 1) * interval = (elapsed + interval) + n * interval := by
      ring
    have hih := ih f (k + 1) (elapsed + interval) (Nat.lt_of_succ_lt_succ hfuel)
      (by omega) (by
        intro m hm
        have := hpre (m + 1) (by omega)
        rwa [show k + (m + 1) = k + 1 + m by omega] at this)
    show (if elapsed < timeout then _ else _) = _
    rw [if_pos helapsed]
    simp only [hnc.1, hnc.2, if_neg, reduceIte]
    rw [hih]
    have hfe : f - n = f + 1 - (n + 1) := by omega
    have hke : k + 1 + n = k + (n + 1) := by omega
    have hee : elapsed + interval + n * interval = elapsed + (n + 1) * interval := by ring
    rw [hfe, hke, hee]
    simp [pollTrace]

/-- C7: for every sequence of polled statuses, if the first `n` polls are
non-terminal and the `n`-th poll happens before the timeout, then —
(COMPLETED) `wait_for_completion` returns the status response's `output`
payload with a trace that ends at that poll (no further sleep or poll after
the `COMPLETED` response); (FAILED) it returns the full status payload with
the same immediate trace, and that return value is distinct from the timeout
sentinel `None`. -/
theorem wait_returns_immediately_on_terminal (poll : Nat → List (String × PyObj))
    (timeout interval n : Nat) (hi : 0 < interval)
    (hpre : ∀ m, m < n → jStatus (poll m) ≠ some "COMPLETED" ∧
      jStatus (poll m) ≠ some "FAILED")
    (hn : n * interval < timeout) :
    (jStatus (poll n) = some "COMPLETED" →
      wait_for_completion poll timeout interval =
        (jLookup (poll n) "output", pollTrace n 0 ++ [WEvent.pollEv n])) ∧
    (jStatus (poll n) = some "FAILED" →
      wait_for_completion poll timeout interval =
        (some (.dict (poll n)), pollTrace n 0 ++ [WEvent.pollEv n]) ∧
      (some (PyObj.dict (poll n)) : Option PyObj) ≠ none) := by
  have hfuel : n < timeout + 1 := by
    have : n ≤ n * interval := Nat.le_mul_of_pos_right n hi
    omega
  have hstep := waitLoop_steps poll timeout interval n (timeout + 1) 0 0 hfuel
    (by omega) (by
      intro m hm
      have := hpre m hm
      rwa [Nat.zero_add])
  rw [Nat.zero_add] at hstep
  rcases Nat.exists_eq_succ_of_ne_zero (n := timeout + 1 - n) (by omega) with ⟨f, hf⟩
  have hlt : 0 + n * interval < timeout := by omega
  constructor
  · intro hc
    rw [wait_for_completion, hstep, hf]
    simp [waitLoop, hlt, hc, hn]
  · intro hc
    refine ⟨?_, by simp⟩
    rw [wait_for_completion, hstep, hf]
    simp [waitLoop, hlt, hc, hn]

/-- C7 witness: for the simulated status sequence IN_QUEUE → IN_PROGRESS →
COMPLETED with a 1-second poll interval and a 10-second timeout, the loop
returns the output payload right after the third poll, with no sleep or poll
following the COMPLETED response. -/
theorem wait_returns_immediately_instance :
    wait_for_completion pollSeqCompleted 10 1 =
      (some (.dict [("status", .str "success")]),
       pollTrace 2 0 ++ [WEvent.pollEv 2]) :=
  (wait_returns_immediately_on_terminal pollSeqCompleted 10 1 2 (by decide)
    (by decide) (by decide)).1 rfl

/-- Timeout lemma for the polling loop: if no poll is ever terminal, the loop
returns the sentinel `none` after some number `j` of poll/sleep iterations,
where the elapsed time `elapsed + j * interval` is the first multiple of the
interval past the timeout. -/
theorem waitLoop_timeout (poll : Nat → List (String × PyObj)) (timeout interval : Nat)
    (hnt : ∀ m, jStatus (poll m) ≠ some "COMPLETED" ∧ jStatus (poll m) ≠ some "FAILED") :
    ∀ fuel k elapsed, timeout ≤ elapsed + fuel * interval →
    elapsed < timeout + interval →
    ∃ j, waitLoop poll timeout interval fuel k elapsed = (none, pollTrace j k) ∧
      timeout ≤ elapsed + j * interval ∧
      elapsed + j * interval < timeout + interval := by
  intro fuel
  induction fuel with
  | zero =>
    intro k elapsed hle hub
    refine ⟨0, ?_, by omega, by omega⟩
    simp [waitLoop, pollTrace]
  | succ f ih =>
    intro k elapsed hle hub
    by_cases he : elapsed < timeout
    · have hnck := hnt k
      obtain ⟨j, hj, hj1, hj2⟩ := ih (k + 1) (elapsed + interval)
        (by
          have : elapsed + (f + 1) * interval = (elapsed + interval) + f * interval := by
            ring
          omega)
        (by omega)
      have hexp : elapsed + (j + 1) * interval = (elapsed + interval) + j * interval := by
        ring
      refine ⟨j + 1, ?_, by omega, by omega⟩
      have huf : waitLoop poll timeout interval (f + 1) k elapsed =
          ((waitLoop poll timeout interval f (k + 1) (elapsed + interval)).1,
           WEvent.pollEv k :: WEvent.sleepEv ::
             (waitLoop poll timeout interval f (k + 1) (elapsed + interval)).2) := by
        simp [waitLoop, he, hnck.1, hnck.2]
      rw [huf, hj]
      simp [pollTrace]
    · refine ⟨0, ?_, by omega, by omega⟩
      simp [waitLoop, he, pollTrace]

/-- C8: for every sequence of polled statuses that never reaches COMPLETED or
FAILED, `wait_for_completion` with a finite timeout and a positive poll
interval terminates, returning the timeout sentinel `none` after finitely
many poll/sleep iterations, with the total elapsed time at least the timeout
and strictly less than timeout plus one poll interval. -/
theorem wait_times_out_when_never_terminal (poll : Nat → List (String × PyObj))
    (timeout interval : Nat) (hi : 0 < interval)
    (hnt : ∀ m, jStatus (poll m) ≠ some "COMPLETED" ∧
      jStatus (poll m) ≠ some "FAILED") :
    ∃ j, wait_for_completion poll timeout interval = (none, pollTrace j 0) ∧
      timeout ≤ j * interval ∧ j * interval < timeout + interval := by
  obtain ⟨j, hj, hj1, hj2⟩ := waitLoop_timeout poll timeout interval hnt
    (timeout + 1) 0 0
    (by
      have : timeout + 1 ≤ (timeout + 1) * interval := Nat.le_mul_of_pos_right _ hi
      omega)
    (by omega)
  exact ⟨j, hj, by omega, by omega⟩

/-- C8 witness: with a status that is always IN_PROGRESS, a 2-second timeout
and a 1-second poll interval, the wait returns the sentinel after exactly two
poll/sleep iterations (elapsed 2 seconds). -/
theorem wait_times_out_instance :
    (0 : Nat) < 1 ∧
    ∃ j, wait_for_completion pollSeqStuck 2 1 = (none, pollTrace j 0) ∧
      2 ≤ j * 1 ∧ j * 1 < 2 + 1 := by
  refine ⟨Nat.one_pos, ?_⟩
  apply wait_times_out_when_never_terminal pollSeqStuck 2 1 Nat.one_pos
  intro m
  constructor
  · show some "IN_PROGRESS" ≠ some "COMPLETED"
    decide
  · show some "IN_PROGRESS" ≠ some "FAILED"
    decide
